import Mathlib

/-!
Shallow embedding of the MP4 ffmpeg CLI pipe encoder
(src/encoder/mp4_ffmpeg_cli_pipe.rs).

The encoder streams raw RGBA frames into an external ffmpeg process.
We model the encoder struct field by field, and each operation
(new, builders, initialize_process, encode, cleanup, finish, Drop::drop)
as a pure state transition that also emits a trace of externally
observable events (process spawn, writes to stdin, closing stdin,
kill, wait, log messages).  External effects whose outcome the code
merely observes are supplied as oracles: encoder-availability probing
(test_encoder), spawn success, write success, and the outcome of the
bounded wait during graceful shutdown.
-/

namespace BevyCapture

/-- A Bevy `Image` as the encoder observes it: width and height from the
texture descriptor, and optionally present raw RGBA pixel bytes
(`image.data` is an `Option` in the source; absent data means the image
was never read back to host memory). -/
structure Image where
  width : Nat
  height : Nat
  data : Option (List Nat)

deriving instance DecidableEq for Image

/-- The retained state of the spawned ffmpeg child process.  After spawn the
code keeps stdin piped (open) and immediately hands stderr to a background
drain thread via `child.stderr.take()`, so the retained handle records
whether stdin is still open and whether the stderr handle is still
attached to the child. -/
structure Child where
  stdinOpen : Bool
  stderrPresent : Bool

deriving instance DecidableEq for Child

/-- Externally observable events emitted by the encoder's operations. -/
inductive Event where
  | spawnProcess (width height : Nat) (encoder : String) (args : List String)
  | spawnDrainThread
  | writeFrame (bytes : List Nat)
  | flushStdin
  | closeStdin
  | waitTimeoutCall
  | logInfoSuccess
  | logErrorWithStderr (status stderrText : String)
  | logErrorStatusOnly (status : String)
  | logTimeoutWarn
  | logWaitError
  | logDropWarn
  | killProcess
  | waitProcess

deriving instance DecidableEq for Event

/-- Outcome of `wait_timeout` during graceful shutdown:
`Ok(Some(status))` (exited, with success flag and displayed status),
`Ok(None)` (timeout elapsed), or `Err(e)` (the wait syscall failed). -/
inductive WaitOutcome where
  | exited (success : Bool) (status : String)
  | timeout
  | err

deriving instance DecidableEq for WaitOutcome

/-- Environment for shutdown: the wait outcome, whether reading stderr to a
string would succeed, and the stderr text that would be read. -/
structure WaitEnv where
  outcome : WaitOutcome
  readOk : Bool
  stderrContent : String

/-- Environment for spawning and writing: the availability oracle backing
`test_encoder` (whether a codec name appears in the ffmpeg encoder list),
whether `Command::spawn` succeeds, and whether stdin writes succeed. -/
structure IoEnv where
  avail : String → Bool
  spawnOk : Bool
  writeOk : Bool

/-- The encoder struct `Mp4FfmpegCliPipeEncoder`, field by field. -/
structure Mp4FfmpegCliPipeEncoder where
  process : Option Child
  path : String
  framerate : Nat
  crf : Nat
  preset : String
  hardware_encoder : Option String
  resolution : Option (Nat × Nat)
  finished : Bool

deriving instance DecidableEq for Mp4FfmpegCliPipeEncoder

/-- `Mp4FfmpegCliPipeEncoder::new`: always returns `Ok` with the default
configuration. -/
def new (path : String) : Except String Mp4FfmpegCliPipeEncoder :=
  Except.ok
    { process := none
      path := path
      framerate := 60
      crf := 23
      preset := "fast"
      hardware_encoder := none
      resolution := none
      finished := false }

/-- Builder `with_framerate`. -/
def with_framerate (self : Mp4FfmpegCliPipeEncoder) (framerate : Nat) :
    Mp4FfmpegCliPipeEncoder :=
  { self with framerate := framerate }

/-- Builder `with_crf`. -/
def with_crf (self : Mp4FfmpegCliPipeEncoder) (crf : Nat) :
    Mp4FfmpegCliPipeEncoder :=
  { self with crf := crf }

/-- Builder `with_preset`. -/
def with_preset (self : Mp4FfmpegCliPipeEncoder) (preset : String) :
    Mp4FfmpegCliPipeEncoder :=
  { self with preset := preset }

/-- Builder `with_hardware_encoder`. -/
def with_hardware_encoder (self : Mp4FfmpegCliPipeEncoder) (encoder : String) :
    Mp4FfmpegCliPipeEncoder :=
  { self with hardware_encoder := some encoder }

/-- Builder `with_resolution`. -/
def with_resolution (self : Mp4FfmpegCliPipeEncoder) (width height : Nat) :
    Mp4FfmpegCliPipeEncoder :=
  { self with resolution := some (width, height) }

/-- `detect_hardware_encoder`: probe the four hardware codecs in the source's
fixed order against the availability oracle (`test_encoder` asks ffmpeg for
its encoder list and checks textual containment). -/
def detect_hardware_encoder (avail : String → Bool) : Option String :=
  if avail ("h264_nvenc") then some ("h264_nvenc")
  else if avail ("h264_qsv") then some ("h264_qsv")
  else if avail ("h264_vaapi") then some ("h264_vaapi")
  else if avail ("h264_videotoolbox") then some ("h264_videotoolbox")
  else none

/-- The codec choice made in `initialize_process`: explicit hardware
preference, else the auto-detection probe, else `libx264`. -/
def chooseEncoder (hardware_encoder : Option String) (avail : String → Bool) :
    String :=
  (hardware_encoder.orElse fun _ => detect_hardware_encoder avail).getD
    ("libx264")

/-- The quality-settings portion of the ffmpeg invocation, from the
`match encoder.as_str()` block in `initialize_process`. -/
def qualityArgs (encoder preset : String) (crf : Nat) : List String :=
  match encoder with
  | "h264_nvenc" => ["-preset", preset, "-cq", toString crf]
  | "h264_qsv" => ["-preset", preset, "-global_quality", toString crf]
  | "h264_vaapi" => ["-vaapi_device", "/dev/dri/renderD128", "-qp", toString crf]
  | "h264_videotoolbox" => ["-q:v", toString crf]
  | _ => ["-preset", preset, "-crf", toString crf]

/-- The full ffmpeg argument list built in `initialize_process`: input
settings, encoder selection, output pixel format, quality settings, and the
output path as trailing argument. -/
def buildFfmpegArgs (width height framerate : Nat) (encoder preset path : String)
    (crf : Nat) : List String :=
  ["-y", "-f", "rawvideo", "-pix_fmt", "rgba",
    "-s", toString width ++ "x" ++ toString height,
    "-r", toString framerate, "-i", "pipe:0",
    "-c:v", encoder, "-pix_fmt", "yuv420p"]
    ++ qualityArgs encoder preset crf ++ [path]

/-- `initialize_process`: resolve the resolution (explicit override, else the
frame's own dimensions), choose the encoder, build the invocation and spawn.
On success the child is retained with stdin open; stderr is immediately taken
by the background drain thread, so the retained handle has no stderr. -/
def initialize_process (avail : String → Bool) (spawnOk : Bool)
    (self : Mp4FfmpegCliPipeEncoder) (image : Image) :
    Except String (Mp4FfmpegCliPipeEncoder × List Event) :=
  let wh : Nat × Nat :=
    match self.resolution with
    | some (w, h) => (w, h)
    | none => (image.width, image.height)
  let encoder := chooseEncoder self.hardware_encoder avail
  let args := buildFfmpegArgs wh.1 wh.2 self.framerate encoder self.preset
    self.path self.crf
  if spawnOk then
    Except.ok
      ({ self with process := some { stdinOpen := true, stderrPresent := false } },
        [Event.spawnProcess wh.1 wh.2 encoder args, Event.spawnDrainThread])
  else
    Except.error ("failed to spawn ffmpeg")

/-- `image_to_raw_bytes`: the image's raw data, or an error when the image
carries no pixel data. -/
def image_to_raw_bytes (image : Image) : Except String (List Nat) :=
  match image.data with
  | none => Except.error ("Image has no data")
  | some bytes => Except.ok bytes

/-- Result of one `encode` call: the mutated encoder state (mutations made
before a failure persist, as with `&mut self` in the source), the emitted
events, and the returned `Result`. -/
structure StepResult where
  state : Mp4FfmpegCliPipeEncoder
  events : List Event
  result : Except String Unit

/-- The body of `encode` after the possible first-frame initialization:
fetch the process and its stdin pipe, extract the raw bytes, write and
flush.  `evs` carries the events emitted by the initialization step. -/
def encodeSpawned (env : IoEnv) (self : Mp4FfmpegCliPipeEncoder)
    (evs : List Event) (image : Image) : StepResult :=
  match self.process with
  | none =>
    { state := self, events := evs,
      result := Except.error ("FFmpeg process not initialized") }
  | some child =>
    if child.stdinOpen then
      match image_to_raw_bytes image with
      | Except.error e => { state := self, events := evs, result := Except.error e }
      | Except.ok bytes =>
        if env.writeOk then
          { state := self,
            events := evs ++ [Event.writeFrame bytes, Event.flushStdin],
            result := Except.ok () }
        else
          { state := self, events := evs, result := Except.error ("write failed") }
    else
      { state := self, events := evs,
        result := Except.error ("Failed to get stdin pipe") }

/-- `encode`: initialize the process on the first frame (when no process is
present), then write the frame's raw bytes to stdin and flush. -/
def encode (env : IoEnv) (self : Mp4FfmpegCliPipeEncoder) (image : Image) :
    StepResult :=
  match self.process with
  | some _ => encodeSpawned env self [] image
  | none =>
    match initialize_process env.avail env.spawnOk self image with
    | Except.error e => { state := self, events := [], result := Except.error e }
    | Except.ok (self1, evs) => encodeSpawned env self1 evs image

/-- A sequence of `encode` calls, threading the state and concatenating the
event traces (the caller keeps calling regardless of individual results). -/
def encodeList (env : IoEnv) :
    Mp4FfmpegCliPipeEncoder → List Image → Mp4FfmpegCliPipeEncoder × List Event
  | self, [] => (self, [])
  | self, image :: rest =>
    let r := encode env self image
    let next := encodeList env r.state rest
    (next.1, r.events ++ next.2)

/-- `log_ffmpeg_error`: if the stderr handle is still attached, read it to a
string and log status plus details (or status only when the read fails);
otherwise log the status only. -/
def log_ffmpeg_error (process : Child) (status : String) (readOk : Bool)
    (stderrContent : String) : Child × List Event :=
  if process.stderrPresent then
    if readOk then
      ({ process with stderrPresent := false },
        [Event.logErrorWithStderr status stderrContent])
    else
      ({ process with stderrPresent := false },
        [Event.logErrorStatusOnly status])
  else
    (process, [Event.logErrorStatusOnly status])

/-- `cleanup`: take the process (no-op when absent), close stdin, then either
the graceful protocol (bounded wait, with the four outcome branches of the
source) or the forceful protocol (kill then wait). -/
def cleanup (graceful : Bool) (wenv : WaitEnv)
    (self : Mp4FfmpegCliPipeEncoder) : Mp4FfmpegCliPipeEncoder × List Event :=
  match self.process with
  | none => (self, [])
  | some process =>
    let self1 := { self with process := none }
    let process1 := { process with stdinOpen := false }
    if graceful then
      match wenv.outcome with
      | WaitOutcome.exited true _ =>
        (self1, [Event.closeStdin, Event.waitTimeoutCall, Event.logInfoSuccess])
      | WaitOutcome.exited false status =>
        let logged := log_ffmpeg_error process1 status wenv.readOk
          wenv.stderrContent
        (self1, [Event.closeStdin, Event.waitTimeoutCall] ++ logged.2)
      | WaitOutcome.timeout =>
        (self1, [Event.closeStdin, Event.waitTimeoutCall, Event.logTimeoutWarn,
          Event.killProcess, Event.waitProcess])
      | WaitOutcome.err =>
        (self1, [Event.closeStdin, Event.waitTimeoutCall, Event.logWaitError,
          Event.killProcess])
    else
      (self1, [Event.closeStdin, Event.killProcess, Event.waitProcess])

/-- `finish`: set the finished flag, then graceful cleanup. -/
def finish (wenv : WaitEnv) (self : Mp4FfmpegCliPipeEncoder) :
    Mp4FfmpegCliPipeEncoder × List Event :=
  cleanup true wenv { self with finished := true }

/-- `Drop::drop`: only when `finish` was not called and a process is present,
log a warning and run forceful cleanup. -/
def drop (wenv : WaitEnv) (self : Mp4FfmpegCliPipeEncoder) :
    Mp4FfmpegCliPipeEncoder × List Event :=
  if !self.finished && self.process.isSome then
    let r := cleanup false wenv self
    (r.1, Event.logDropWarn :: r.2)
  else
    (self, [])

/-- Extract the resolution carried by a spawn event, if any. -/
def spawnDims : Event → Option (Nat × Nat)
  | Event.spawnProcess w h _ _ => some (w, h)
  | _ => none

/-- The resolutions of all process spawns in a trace, in order. -/
def spawnResolutions (evs : List Event) : List (Nat × Nat) :=
  evs.filterMap spawnDims

/-- A freshly constructed sink for the path used in concrete runs. -/
def sinkOut : Mp4FfmpegCliPipeEncoder :=
  { process := none
    path := "out.mp4"
    framerate := 60
    crf := 23
    preset := "fast"
    hardware_encoder := none
    resolution := none
    finished := false }

/-- A concrete environment with no hardware encoder available and all OS
effects succeeding. -/
def envOk : IoEnv :=
  { avail := fun _ => false, spawnOk := true, writeOk := true }

/-- A concrete 2 x 2 frame with 16 bytes of RGBA data present. -/
def frameA : Image :=
  { width := 2, height := 2, data := some (List.replicate 16 0) }

/-- A second concrete 2 x 2 frame. -/
def frameB : Image :=
  { width := 2, height := 2, data := some (List.replicate 16 255) }

/-- C10: `new` is infallible: for every output path it returns `Ok` with the
default configuration: no process, framerate 60, CRF 23, preset "fast", no
hardware preference, no explicit resolution, and `finished` false. -/
theorem new_infallible_defaults (p : String) :
    new p =
      Except.ok
        { process := none
          path := p
          framerate := 60
          crf := 23
          preset := "fast"
          hardware_encoder := none
          resolution := none
          finished := false } := rfl

/-- Closed instance of `new_infallible_defaults` evaluated at a concrete
path. -/
theorem new_infallible_defaults_witness :
    new ("out.mp4") =
      Except.ok
        { process := none
          path := "out.mp4"
          framerate := 60
          crf := 23
          preset := "fast"
          hardware_encoder := none
          resolution := none
          finished := false } :=
  new_infallible_defaults ("out.mp4")

/-- C8: the quality-argument portion of the invocation is a pure function of
codec name, quality factor and preset: each of the four hardware codec names
and the software fallback yields its documented arguments, and any codec
name outside the lookup table yields the software-fallback pair
(-preset, -crf). -/
theorem quality_args_lookup_table (p : String) (c : Nat) (e : String)
    (h : e ∉ ["h264_nvenc", "h264_qsv", "h264_vaapi", "h264_videotoolbox"]) :
    qualityArgs ("h264_nvenc") p c = ["-preset", p, "-cq", toString c] ∧
    qualityArgs ("h264_qsv") p c = ["-preset", p, "-global_quality", toString c] ∧
    qualityArgs ("h264_vaapi") p c =
      ["-vaapi_device", "/dev/dri/renderD128", "-qp", toString c] ∧
    qualityArgs ("h264_videotoolbox") p c = ["-q:v", toString c] ∧
    qualityArgs ("libx264") p c = ["-preset", p, "-crf", toString c] ∧
    qualityArgs e p c = ["-preset", p, "-crf", toString c] := by
  simp only [List.mem_cons, List.not_mem_nil, or_false, not_or] at h
  obtain ⟨h1, h2, h3, h4⟩ := h
  refine ⟨rfl, rfl, rfl, rfl, rfl, ?_⟩
  unfold qualityArgs
  split
  · exact absurd rfl h1
  · exact absurd rfl h2
  · exact absurd rfl h3
  · exact absurd rfl h4
  · rfl

/-- Closed instance of `quality_args_lookup_table` at preset "fast", CRF 23
and the unrecognized codec name "mpeg4". -/
theorem quality_args_lookup_table_witness :
    qualityArgs ("h264_nvenc") ("fast") 23 = ["-preset", "fast", "-cq", "23"] ∧
    qualityArgs ("h264_qsv") ("fast") 23 =
      ["-preset", "fast", "-global_quality", "23"] ∧
    qualityArgs ("h264_vaapi") ("fast") 23 =
      ["-vaapi_device", "/dev/dri/renderD128", "-qp", "23"] ∧
    qualityArgs ("h264_videotoolbox") ("fast") 23 = ["-q:v", "23"] ∧
    qualityArgs ("libx264") ("fast") 23 = ["-preset", "fast", "-crf", "23"] ∧
    qualityArgs ("mpeg4") ("fast") 23 = ["-preset", "fast", "-crf", "23"] :=
  quality_args_lookup_table ("fast") 23 ("mpeg4") (by decide)

/-- C7: codec selection is deterministic with priority: an explicitly
configured hardware encoder wins; otherwise the probe is consulted, which
returns the first available name in the fixed order h264_nvenc, h264_qsv,
h264_vaapi, h264_videotoolbox; otherwise the fallback is libx264. -/
theorem codec_selection_priority (avail : String → Bool) (e : String) :
    chooseEncoder (some e) avail = e ∧
    detect_hardware_encoder avail =
      (["h264_nvenc", "h264_qsv", "h264_vaapi", "h264_videotoolbox"].find?
        avail) ∧
    (detect_hardware_encoder avail = none →
      chooseEncoder none avail = "libx264") ∧
    (∀ d, detect_hardware_encoder avail = some d →
      chooseEncoder none avail = d) := by
  refine ⟨rfl, ?_, ?_, ?_⟩
  · unfold detect_hardware_encoder
    cases h1 : avail ("h264_nvenc") <;> cases h2 : avail ("h264_qsv") <;>
      cases h3 : avail ("h264_vaapi") <;>
      cases h4 : avail ("h264_videotoolbox") <;>
      simp [List.find?, h1, h2, h3, h4]
  · intro hnone
    unfold chooseEncoder
    simp [Option.orElse, hnone]
  · intro d hd
    unfold chooseEncoder
    simp [Option.orElse, hd]

/-- Closed instance of `codec_selection_priority`: with only h264_qsv
available, the probe skips h264_nvenc and returns h264_qsv, and with no
explicit preference that is the chosen encoder; an explicit preference
"custom" wins regardless. -/
theorem codec_selection_priority_witness :
    chooseEncoder (some ("custom")) (fun s => s == "h264_qsv") = "custom" ∧
    detect_hardware_encoder (fun s => s == "h264_qsv") = some ("h264_qsv") ∧
    chooseEncoder none (fun s => s == "h264_qsv") = "h264_qsv" := by
  have h := codec_selection_priority (fun s => s == "h264_qsv") ("custom")
  refine ⟨h.1, ?_, ?_⟩
  · rw [h.2.1]; decide
  · exact h.2.2.2 ("h264_qsv") (by rw [h.2.1]; decide)

/-- C2: after `finish`, the finished flag is true and the process handle has
been taken, and a subsequent `Drop::drop` is a complete no-op: it changes no
state and emits no events, whatever the shutdown environments are. -/
theorem finish_then_drop_noop (wenv wenv2 : WaitEnv)
    (self : Mp4FfmpegCliPipeEncoder) :
    (finish wenv self).1.finished = true ∧
    (finish wenv self).1.process = none ∧
    drop wenv2 (finish wenv self).1 = ((finish wenv self).1, []) := by
  have hkey : (finish wenv self).1.finished = true ∧
      (finish wenv self).1.process = none := by
    unfold finish cleanup
    rcases hp : self.process with _ | c
    · simp
    · rcases wenv.outcome with ⟨_ | _, st⟩ | _ | _ <;> simp
  refine ⟨hkey.1, hkey.2, ?_⟩
  unfold drop
  rw [hkey.1]
  simp

/-- C3: `Drop::drop` on a sink that was never finished and still holds a
process handle performs the forceful shutdown exactly once: warn, close the
input channel, terminate, then wait for reclamation; the graceful
wait-with-timeout path is never entered and the handle is taken. -/
theorem drop_unfinished_forceful (wenv : WaitEnv)
    (self : Mp4FfmpegCliPipeEncoder) (c : Child)
    (hfin : self.finished = false) (hproc : self.process = some c) :
    (drop wenv self).2 =
      [Event.logDropWarn, Event.closeStdin, Event.killProcess,
        Event.waitProcess] ∧
    Event.waitTimeoutCall ∉ (drop wenv self).2 ∧
    (drop wenv self).1.process = none := by
  unfold drop cleanup
  rw [hfin, hproc]
  simp

/-- Closed instance of `drop_unfinished_forceful` on a sink holding a live
process. -/
theorem drop_unfinished_forceful_witness :
    (drop { outcome := WaitOutcome.timeout, readOk := true, stderrContent := "" }
        { sinkOut with
          process := some { stdinOpen := true, stderrPresent := false } }).2 =
      [Event.logDropWarn, Event.closeStdin, Event.killProcess,
        Event.waitProcess] :=
  (drop_unfinished_forceful
    { outcome := WaitOutcome.timeout, readOk := true, stderrContent := "" }
    { sinkOut with process := some { stdinOpen := true, stderrPresent := false } }
    { stdinOpen := true, stderrPresent := false } rfl rfl).1

/-- `encodeSpawned` never changes the encoder state. -/
theorem encodeSpawned_state (env : IoEnv) (self : Mp4FfmpegCliPipeEncoder)
    (evs : List Event) (image : Image) :
    (encodeSpawned env self evs image).state = self := by
  unfold encodeSpawned
  rcases self.process with _ | child
  · rfl
  · simp only
    rcases image_to_raw_bytes image with e | bytes <;>
      cases child.stdinOpen <;> cases env.writeOk <;> simp

/-- `encodeSpawned` adds only write and flush events: its spawn resolutions
are those of the initialization events it was handed. -/
theorem encodeSpawned_spawns (env : IoEnv) (self : Mp4FfmpegCliPipeEncoder)
    (evs : List Event) (image : Image) :
    spawnResolutions (encodeSpawned env self evs image).events =
      spawnResolutions evs := by
  unfold encodeSpawned
  rcases self.process with _ | child
  · rfl
  · simp only
    rcases image_to_raw_bytes image with e | bytes <;>
      cases child.stdinOpen <;> cases env.writeOk <;>
      simp [spawnResolutions, spawnDims]

/-- An `encode` call on a sink that already holds a process spawns nothing
and leaves the state unchanged. -/
theorem encode_spawned_no_spawn (env : IoEnv) (self : Mp4FfmpegCliPipeEncoder)
    (image : Image) (c : Child) (hproc : self.process = some c) :
    (encode env self image).state = self ∧
    spawnResolutions (encode env self image).events = [] := by
  unfold encode
  rw [hproc]
  exact ⟨encodeSpawned_state env self [] image,
    encodeSpawned_spawns env self [] image⟩

/-- A first `encode` call (no process yet) under a successful spawn emits
exactly one spawn, carrying the override resolution when configured and the
frame's own dimensions otherwise, and leaves the sink holding the process. -/
theorem encode_first_spawn (env : IoEnv) (self : Mp4FfmpegCliPipeEncoder)
    (image : Image) (hproc : self.process = none)
    (hspawn : env.spawnOk = true) :
    spawnResolutions (encode env self image).events =
      [match self.resolution with
        | some wh => wh
        | none => (image.width, image.height)] ∧
    (encode env self image).state.process =
      some { stdinOpen := true, stderrPresent := false } := by
  unfold encode initialize_process
  rw [hproc, hspawn]
  simp only [if_true]
  constructor
  · rw [encodeSpawned_spawns]
    rcases self.resolution with _ | ⟨w, h⟩ <;>
      simp [spawnResolutions, spawnDims]
  · rw [encodeSpawned_state]

/-- A sequence of `encode` calls starting from a sink that already holds a
process spawns nothing at all. -/
theorem encodeList_no_spawn (env : IoEnv) (images : List Image) :
    ∀ (self : Mp4FfmpegCliPipeEncoder) (c : Child), self.process = some c →
      spawnResolutions (encodeList env self images).2 = [] := by
  induction images with
  | nil => intro self c _; simp [encodeList, spawnResolutions]
  | cons image rest ih =>
    intro self c hproc
    have hstep := encode_spawned_no_spawn env self image c hproc
    unfold encodeList
    simp only [spawnResolutions, List.filterMap_append]
    rw [hstep.1]
    have hrest := ih self c hproc
    simp only [spawnResolutions] at hstep hrest
    rw [hstep.2, hrest]
    rfl

/-- C1: over any sequence of `encode` calls on one sink (fresh, spawn
succeeding), exactly one process spawn occurs in the whole trace and it
happens during the first call; its resolution is the explicit override when
one was configured with `with_resolution`, and otherwise the first frame's
own width and height. -/
theorem spawn_once_first_encode (env : IoEnv)
    (self : Mp4FfmpegCliPipeEncoder) (image : Image) (rest : List Image)
    (hproc : self.process = none) (hspawn : env.spawnOk = true) :
    (self.resolution = none →
      spawnResolutions (encodeList env self (image :: rest)).2 =
        [(image.width, image.height)] ∧
      spawnResolutions (encode env self image).events =
        [(image.width, image.height)]) ∧
    (∀ w h, self.resolution = some (w, h) →
      spawnResolutions (encodeList env self (image :: rest)).2 = [(w, h)] ∧
      spawnResolutions (encode env self image).events = [(w, h)]) := by
  have hfirst := encode_first_spawn env self image hproc hspawn
  have hfull : spawnResolutions (encodeList env self (image :: rest)).2 =
      spawnResolutions (encode env self image).events := by
    unfold encodeList
    simp only [spawnResolutions, List.filterMap_append]
    have hrest := encodeList_no_spawn env rest (encode env self image).state
      { stdinOpen := true, stderrPresent := false } hfirst.2
    simp only [spawnResolutions] at hrest
    rw [hrest, List.append_nil]
  constructor
  · intro hres
    rw [hres] at hfirst
    exact ⟨by rw [hfull, hfirst.1], hfirst.1⟩
  · intro w h hres
    rw [hres] at hfirst
    exact ⟨by rw [hfull, hfirst.1], hfirst.1⟩

/-- Closed instance of `spawn_once_first_encode`: two frames on a default
sink spawn once at the frames' 2 x 2 resolution, and one frame on a sink
configured `with_resolution 320 200` spawns once at 320 x 200 even though
the frame is 2 x 2. -/
theorem spawn_once_first_encode_witness :
    spawnResolutions (encodeList envOk sinkOut [frameA, frameB]).2 =
      [(2, 2)] ∧
    spawnResolutions
      (encodeList envOk (with_resolution sinkOut 320 200) [frameA]).2 =
      [(320, 200)] :=
  ⟨((spawn_once_first_encode envOk sinkOut frameA [frameB] rfl rfl).1 rfl).1,
    ((spawn_once_first_encode envOk (with_resolution sinkOut 320 200) frameA []
      rfl rfl).2 320 200 rfl).1⟩

/-- A sink holding a live process (stdin open, stderr already taken by the
drain thread), as produced by a successful spawn. -/
def liveSink : Mp4FfmpegCliPipeEncoder :=
  { sinkOut with process := some { stdinOpen := true, stderrPresent := false } }

/-- Refutation of C4 at a concrete input: during graceful shutdown with the
wait-for-exit call itself failing, the process is killed but no wait for
reclamation follows, so the forcibly terminated process is not reaped. -/
theorem graceful_wait_error_kill_without_reap :
    Event.killProcess ∈
      (cleanup true
        { outcome := WaitOutcome.err, readOk := true, stderrContent := "" }
        liveSink).2 ∧
    Event.waitProcess ∉
      (cleanup true
        { outcome := WaitOutcome.err, readOk := true, stderrContent := "" }
        liveSink).2 := by
  decide

/-- C4 (amended): in the forceful path and in the graceful-timeout path a
kill is followed by a reclamation wait, but when the wait-for-exit call
itself fails during graceful shutdown the process is killed without a
following wait (the handle is dropped unreaped). -/
theorem kill_then_reap_paths (wenv : WaitEnv)
    (self : Mp4FfmpegCliPipeEncoder) (c : Child)
    (hproc : self.process = some c) :
    (cleanup false wenv self).2 =
      [Event.closeStdin, Event.killProcess, Event.waitProcess] ∧
    (wenv.outcome = WaitOutcome.timeout →
      (cleanup true wenv self).2 =
        [Event.closeStdin, Event.waitTimeoutCall, Event.logTimeoutWarn,
          Event.killProcess, Event.waitProcess]) ∧
    (wenv.outcome = WaitOutcome.err →
      (cleanup true wenv self).2 =
        [Event.closeStdin, Event.waitTimeoutCall, Event.logWaitError,
          Event.killProcess] ∧
      Event.waitProcess ∉ (cleanup true wenv self).2) := by
  have hforce : (cleanup false wenv self).2 =
      [Event.closeStdin, Event.killProcess, Event.waitProcess] := by
    unfold cleanup
    rw [hproc]
    simp
  have herr : wenv.outcome = WaitOutcome.err →
      (cleanup true wenv self).2 =
        [Event.closeStdin, Event.waitTimeoutCall, Event.logWaitError,
          Event.killProcess] := by
    intro ho
    unfold cleanup
    rw [hproc, ho]
    simp
  refine ⟨hforce, ?_, fun ho => ⟨herr ho, ?_⟩⟩
  · intro ho
    unfold cleanup
    rw [hproc, ho]
    simp
  · rw [herr ho]
    decide

/-- Closed instance of `kill_then_reap_paths` on a sink holding a live
process, with the graceful wait timing out. -/
theorem kill_then_reap_paths_witness :
    (cleanup false
      { outcome := WaitOutcome.timeout, readOk := true, stderrContent := "" }
      liveSink).2 =
      [Event.closeStdin, Event.killProcess, Event.waitProcess] ∧
    (cleanup true
      { outcome := WaitOutcome.timeout, readOk := true, stderrContent := "" }
      liveSink).2 =
      [Event.closeStdin, Event.waitTimeoutCall, Event.logTimeoutWarn,
        Event.killProcess, Event.waitProcess] := by
  have h := kill_then_reap_paths
    { outcome := WaitOutcome.timeout, readOk := true, stderrContent := "" }
    liveSink { stdinOpen := true, stderrPresent := false } rfl
  exact ⟨h.1, h.2.1 rfl⟩

/-- The shutdown environment of a run whose encoder process exits within the
timeout with a failure status while stderr text would be readable. -/
def failEnv : WaitEnv :=
  { outcome := WaitOutcome.exited false ("exit status: 1")
    readOk := true
    stderrContent := "conversion failed" }

/-- Refutation of C5 at a concrete input: after a real spawn (which hands
stderr to the background drain thread), a graceful shutdown that sees a
failure exit status logs the status only; the available stderr text is not
drained into the reported message. -/
theorem graceful_failure_status_only_counterexample :
    (finish failEnv (encode envOk sinkOut frameA).state).2 =
      [Event.closeStdin, Event.waitTimeoutCall,
        Event.logErrorStatusOnly ("exit status: 1")] ∧
    Event.logErrorWithStderr ("exit status: 1") ("conversion failed") ∉
      (finish failEnv (encode envOk sinkOut frameA).state).2 := by
  refine ⟨rfl, ?_⟩
  decide

/-- C5 (amended): during graceful shutdown after a spawn performed by
`encode`, a failure exit status within the timeout is reported as a logged
encoding failure carrying the exit status only and is not raised to the
caller; the stderr-draining branch of `log_ffmpeg_error` cannot run because
the spawn path already moved stderr to the background drain thread. -/
theorem graceful_failure_logged_status_only (env : IoEnv) (wenv : WaitEnv)
    (self : Mp4FfmpegCliPipeEncoder) (img : Image) (status : String)
    (hproc : self.process = none) (hspawn : env.spawnOk = true)
    (hout : wenv.outcome = WaitOutcome.exited false status) :
    (finish wenv (encode env self img).state).2 =
      [Event.closeStdin, Event.waitTimeoutCall,
        Event.logErrorStatusOnly status] := by
  have h2 := (encode_first_spawn env self img hproc hspawn).2
  unfold finish cleanup
  rw [show ({ (encode env self img).state with finished := true} :
      Mp4FfmpegCliPipeEncoder).process = (encode env self img).state.process
    from rfl, h2, hout]
  simp [log_ffmpeg_error]

/-- Closed instance of `graceful_failure_logged_status_only` on a default
sink after one encoded frame. -/
theorem graceful_failure_logged_status_only_witness :
    (finish failEnv (encode envOk sinkOut frameB).state).2 =
      [Event.closeStdin, Event.waitTimeoutCall,
        Event.logErrorStatusOnly ("exit status: 1")] :=
  graceful_failure_logged_status_only envOk failEnv sinkOut frameB
    ("exit status: 1") rfl rfl rfl

/-- `encodeSpawned` on a data-less frame does not return `Ok`. -/
theorem encodeSpawned_dataless_result (env : IoEnv)
    (self : Mp4FfmpegCliPipeEncoder) (evs : List Event) (img : Image)
    (hd : img.data = none) :
    (encodeSpawned env self evs img).result ≠ Except.ok () := by
  unfold encodeSpawned image_to_raw_bytes
  rw [hd]
  rcases self.process with _ | c
  · simp
  · by_cases hs : c.stdinOpen = true <;> simp [hs]

/-- `encodeSpawned` on a data-less frame emits no events beyond those of the
initialization it was handed. -/
theorem encodeSpawned_dataless_events (env : IoEnv)
    (self : Mp4FfmpegCliPipeEncoder) (evs : List Event) (img : Image)
    (hd : img.data = none) :
    (encodeSpawned env self evs img).events = evs := by
  unfold encodeSpawned image_to_raw_bytes
  rw [hd]
  rcases self.process with _ | c
  · rfl
  · by_cases hs : c.stdinOpen = true <;> simp [hs]

/-- A concrete 64 x 64 frame carrying no pixel data. -/
def frameNoData : Image := { width := 64, height := 64, data := none }

/-- Refutation of C6 at a concrete input: a first `encode` call on a
data-less frame spawns the process (at the frame's dimensions) and only then
returns the no-data error, so the error does not precede the spawn. -/
theorem encode_dataless_spawn_precedes_error :
    spawnResolutions (encode envOk sinkOut frameNoData).events = [(64, 64)] ∧
    (encode envOk sinkOut frameNoData).result =
      Except.error ("Image has no data") :=
  ⟨rfl, rfl⟩

/-- C6 (amended): `encode` on a data-less frame never returns `Ok` and never
writes bytes to the process input channel; however, on a first call with a
successful spawn the process is spawned before the error is returned. -/
theorem encode_dataless_never_writes (env : IoEnv)
    (self : Mp4FfmpegCliPipeEncoder) (img : Image) (hd : img.data = none) :
    (encode env self img).result ≠ Except.ok () ∧
    (∀ b, Event.writeFrame b ∉ (encode env self img).events) ∧
    (self.process = none → env.spawnOk = true →
      spawnResolutions (encode env self img).events ≠ []) := by
  rcases hp : self.process with _ | c
  · cases hs : env.spawnOk
    · unfold encode initialize_process
      rw [hp, hs]
      simp
    · unfold encode initialize_process
      rw [hp, hs]
      simp only [if_true]
      refine ⟨encodeSpawned_dataless_result env _ _ img hd, ?_, ?_⟩
      · intro b
        rw [encodeSpawned_dataless_events env _ _ img hd]
        simp
      · intro _ _
        rw [encodeSpawned_dataless_events env _ _ img hd]
        simp [spawnResolutions, spawnDims]
  · unfold encode
    rw [hp]
    refine ⟨encodeSpawned_dataless_result env self [] img hd, ?_, ?_⟩
    · intro b
      rw [encodeSpawned_dataless_events env self [] img hd]
      simp
    · intro h0 _
      exact absurd h0 (by simp)

/-- Closed instance of `encode_dataless_never_writes` on a default sink and
a data-less 64 x 64 frame. -/
theorem encode_dataless_never_writes_witness :
    (encode envOk sinkOut frameNoData).result ≠ Except.ok () ∧
    Event.writeFrame (List.replicate 16384 0) ∉
      (encode envOk sinkOut frameNoData).events := by
  have h := encode_dataless_never_writes envOk sinkOut frameNoData rfl
  exact ⟨h.1, h.2.1 (List.replicate 16384 0)⟩

/-- C9: `encode` forwards the frame's entire pixel byte buffer verbatim to
the process input channel and flushes, with no validation relating the
buffer length to width, height or the resolution fixed at spawn time. -/
theorem encode_writes_buffer_verbatim (env : IoEnv)
    (self : Mp4FfmpegCliPipeEncoder) (c : Child) (img : Image)
    (bytes : List Nat) (hproc : self.process = some c)
    (hstdin : c.stdinOpen = true) (hdata : img.data = some bytes)
    (hw : env.writeOk = true) :
    (encode env self img).events =
      [Event.writeFrame bytes, Event.flushStdin] ∧
    (encode env self img).result = Except.ok () := by
  unfold encode encodeSpawned image_to_raw_bytes
  rw [hproc]
  simp [hstdin, hdata, hw]

/-- A concrete 64 x 64 frame whose buffer has only 3 bytes, disagreeing with
width x height x 4 = 16384. -/
def frameMismatch : Image :=
  { width := 64, height := 64, data := some [1, 2, 3] }

/-- Closed instance of `encode_writes_buffer_verbatim` on a 64 x 64 frame
carrying a 3-byte buffer: the 3 bytes are written in full. -/
theorem encode_writes_buffer_verbatim_witness :
    (encode envOk liveSink frameMismatch).events =
      [Event.writeFrame [1, 2, 3], Event.flushStdin] ∧
    (encode envOk liveSink frameMismatch).result = Except.ok () :=
  encode_writes_buffer_verbatim envOk liveSink
    { stdinOpen := true, stderrPresent := false } frameMismatch [1, 2, 3]
    rfl rfl rfl rfl

end BevyCapture
